import Mathlib

/-!
Shallow embedding of `stan_colab_utils.py`: the extension-driven codec
dispatcher (`read` / `save`, source lines 17-64) and the cache-then-compile
wrapper (`StanModel`, source lines 67-220).

Byte strings are lists of naturals.  The external collaborators — the
compression modules `gzip` / `lzma` / `bz2` / `io`, the `pickle` module and
the `pystan.StanModel` builder — are parameters of the embedding (`Env`,
`builder`), since their code is not part of this repository; the script's
own logic (extension dispatch, mode/pickling forcing, the cache probe, the
`except (OSError, TypeError)` policy, the truthiness guard before saving,
and the `import pystan` / `install` fallback) is translated directly.
-/

deriving instance DecidableEq for Except

namespace StanColabUtils

/-- Byte strings (the contents of files and the payloads the codecs and
`pickle` work on) are modelled as lists of naturals. -/
abbrev Bytes := List Nat

/-- Python exception classes relevant to the script, identified by class tag
plus message.  `osError` covers the `OSError` hierarchy (`FileNotFoundError`,
`PermissionError`, `gzip.BadGzipFile`, ...); `typeError` is `TypeError`;
`unpicklingError` is `pickle.UnpicklingError`, which is neither an `OSError`
nor a `TypeError`; `nameError` covers `NameError` and its subclass
`UnboundLocalError`; `buildError` stands for the compilation errors the
external builder raises; `other` is any remaining exception class. -/
inductive PyErr
  | osError (msg : String)
  | typeError (msg : String)
  | unpicklingError (msg : String)
  | nameError (msg : String)
  | buildError (msg : String)
  | other (msg : String)
deriving DecidableEq

/-- Which exception classes the clause `except (OSError, TypeError)` at
source line 196 catches: exactly the `OSError` hierarchy and `TypeError`. -/
def caughtByProbe : PyErr → Bool
  | .osError _ => true
  | .typeError _ => true
  | _ => false

/-- The compression modules the `ext_dict` table can select (source lines
26-35 and 50-59): `gzip`, `lzma`, `bz2`, and `io` (plain uncompressed file
access, the raw-bytes codec). -/
inductive Codec
  | gzip
  | lzma
  | bz2
  | io
deriving DecidableEq

/-- The byte-level external collaborators.  Each codec has a write transform
(`comp`: what `codec.open(path, "wb")` followed by `write b` stores on disk)
and a read transform (`decomp`: what `codec.open(path, "rb")` followed by
`read()` yields, which may raise — e.g. `gzip.BadGzipFile`, an `OSError`, on
a corrupt container).  `pickle` works over the universe `V` of picklable
values: `dumps` is total on `V`, `loads` may raise (e.g.
`pickle.UnpicklingError` on a malformed payload).  `bytesVal` embeds a raw
byte string into `V` (a Python `bytes` object); `asBytes` projects back,
`none` when the value is not a `bytes` object (then `f.write(obj)` raises a
`TypeError`). -/
structure Env (V : Type) where
  comp : Codec → Bytes → Bytes
  decomp : Codec → Bytes → Except PyErr Bytes
  dumps : V → Bytes
  loads : Bytes → Except PyErr V
  bytesVal : Bytes → V
  asBytes : V → Option Bytes

/-- Round-trip laws of the external collaborators: each codec's read
transform inverts its write transform, and `pickle.loads` inverts
`pickle.dumps` on every picklable value. -/
structure Env.Lawful {V : Type} (env : Env V) : Prop where
  decomp_comp : ∀ c b, env.decomp c (env.comp c b) = .ok b
  loads_dumps : ∀ v, env.loads (env.dumps v) = .ok v

/-- The filesystem: a map from path to file contents (`none` = no file). -/
def FS := String → Option Bytes

/-- Writing a file: creates or overwrites the entry at `p`. -/
def FS.update (fs : FS) (p : String) (b : Bytes) : FS :=
  fun q => if q = p then some b else fs q

/-- `os.path.exists` (source line 192).  The empty path never names an
existing file: `os.path.exists("")` is `False` in Python. -/
def os_path_exists (fs : FS) (p : String) : Bool :=
  (p != "") && (fs p).isSome

/-- Index of the last occurrence of `c` in `l` (`str.rfind` restricted to a
single-character needle, with `none` for "not found"). -/
def rfindChar (c : Char) : List Char → Option Nat
  | [] => none
  | x :: xs =>
    match rfindChar c xs with
    | some i => some (i + 1)
    | none => if x = c then some 0 else none

/-- `os.path.splitext` on POSIX, as CPython's `genericpath._splitext` with
separator `/` and extension separator `.`: the extension starts at the last
dot after the last slash, except that a leading run of dots in the basename
is not an extension separator (so `".pkl"` has extension `""`). -/
def splitext (p : String) : String × String :=
  let l := p.data
  let sepIndex : Int :=
    match rfindChar '/' l with
    | some i => (i : Int)
    | none => -1
  let dotIndex : Int :=
    match rfindChar '.' l with
    | some i => (i : Int)
    | none => -1
  if sepIndex < dotIndex then
    let start := (sepIndex + 1).toNat
    let d := dotIndex.toNat
    if ((l.drop start).take (d - start)).any (fun ch => ch ≠ '.') then
      (⟨l.take d⟩, ⟨l.drop d⟩)
    else
      (p, "")
  else
    (p, "")

/-- The `ext_dict` literal shared by `read` (lines 26-35) and `save` (lines
50-59), as an association list in source order; `ext_dict.get(extension, io)`
becomes `(List.lookup extension ext_dict).getD .io`. -/
def ext_dict : List (String × Codec) :=
  [(".gz", .gzip), (".gzip", .gzip), (".zip", .gzip),
   (".xz", .lzma), (".lzma", .lzma), (".bz2", .bz2),
   (".pkl", .io), (".pickle", .io)]

variable {V : Type} {α : Type}

/-- `_read(path, compression, mode, pickling)` (source lines 17-22): open
the path through the codec, read everything, and deserialise if `pickling`.
A missing file makes the open raise `FileNotFoundError` (an `OSError`).
Every call in the script uses a binary mode, so `mode` is threaded through
but does not change the byte semantics here. -/
def _read (env : Env V) (fs : FS) (path : String) (compression : Codec)
    (mode : String := "rb") (pickling : Bool := true) : Except PyErr V :=
  match fs path with
  | none => .error (.osError "No such file or directory")
  | some raw =>
    match env.decomp compression raw with
    | .error e => .error e
    | .ok obj => if pickling then env.loads obj else .ok (env.bytesVal obj)

/-- `read(path, mode, pickling)` (source lines 24-40): split off the
extension, force binary mode and pickling for `.pkl` / `.pickle`, look the
codec up in `ext_dict` with `io` as the fallback, and delegate to `_read`. -/
def read (env : Env V) (fs : FS) (path : String)
    (mode : String := "rb") (pickling : Bool := true) : Except PyErr V :=
  let extension := (splitext path).2
  let mode := if extension = ".pkl" ∨ extension = ".pickle" then "rb" else mode
  let pickling := if extension = ".pkl" ∨ extension = ".pickle" then true else pickling
  let compression := (List.lookup extension ext_dict).getD .io
  _read env fs path compression mode pickling

/-- `_save(path, obj, compression, mode, pickling, **kwargs)` (source lines
42-46): serialise `obj` if `pickling`, then open the path for writing
through the codec and write the bytes.  Without pickling, `f.write(obj)`
needs a `bytes` object and raises `TypeError` otherwise.  The extra keyword
options (`kwargs`, e.g. a compression level) are forwarded to the codec's
open call; they do not change which bytes round-trip, so they are carried
but inert.  (The file truncation a failed non-bytes write leaves behind is
not modelled.) -/
def _save (env : Env V) (fs : FS) (path : String) (obj : V) (compression : Codec)
    (mode : String := "wb") (pickling : Bool := true)
    (kwargs : List (String × String) := []) : Except PyErr FS :=
  let data : Except PyErr Bytes :=
    if pickling then .ok (env.dumps obj)
    else
      match env.asBytes obj with
      | some b => .ok b
      | none => .error (.typeError "a bytes-like object is required")
  match data with
  | .error e => .error e
  | .ok b => .ok (fs.update path (env.comp compression b))

/-- `save(path, obj, mode, pickling, **kwargs)` (source lines 48-64): the
same extension-to-codec resolution as `read`, forcing `"wb"` mode and
pickling for `.pkl` / `.pickle`, then `_save`. -/
def save (env : Env V) (fs : FS) (path : String) (obj : V)
    (mode : String := "wb") (pickling : Bool := true)
    (kwargs : List (String × String) := []) : Except PyErr FS :=
  let extension := (splitext path).2
  let mode := if extension = ".pkl" ∨ extension = ".pickle" then "wb" else mode
  let pickling := if extension = ".pkl" ∨ extension = ".pickle" then true else pickling
  let compression := (List.lookup extension ext_dict).getD .io
  _save env fs path obj compression mode pickling kwargs

example : (splitext "m.pkl").2 = ".pkl" := by decide
example : (splitext "model.tar.gz").2 = ".gz" := by decide
example : (splitext ".pkl").2 = "" := by decide
example : (splitext "dir.d/file").2 = "" := by decide
example : (splitext "a/b.xz").2 = ".xz" := by decide

/-- The parameters `StanModel` forwards verbatim to `pystan.StanModel` — the
`stan_model_kwargs` dict of source lines 202-215 — with the Python default
values of lines 67.  `α` is the type of the opaque argument payloads (file
handles, code strings, dicts, ...); `kwargs` is the open-ended `**kwargs`
bag. -/
structure StanArgs (α : Type) where
  file : Option α := none
  charset : String := "utf-8"
  model_name : String := "anon_model"
  model_code : Option α := none
  stanc_ret : Option α := none
  include_paths : Option α := none
  boost_lib : Option α := none
  eigen_lib : Option α := none
  verbose : Bool := false
  obfuscate_model_name : Bool := true
  extra_compile_args : Option α := none
  kwargs : List (String × α) := []
deriving DecidableEq

/-- What one `StanModel` call produces: its `result` (the returned model, or
the exception the call raises), the filesystem afterwards, `builderCalls`
(the argument records passed to `pystan.StanModel`, in order — its length is
the builder call count), and how many times `install` ran. -/
structure SMResult (V α : Type) where
  result : Except PyErr V
  fs : FS
  builderCalls : List (StanArgs α)
  installCalls : Nat

/-- `StanModel(...)` (source lines 67-220).  `pystanAvailable` says whether
`import pystan` at line 188 succeeds; when it fails, the bare `except` runs
`install("pystan")` (line 190) but the function-local name `pystan` stays
unbound, so if the compile branch is reached, evaluating `pystan.StanModel`
at line 216 raises `UnboundLocalError` (a `NameError`) before any builder
invocation — whether or not the installation succeeded.  `builder` is the
external `pystan.StanModel` collaborator.  Lines 192-199 are the cache
probe with its `except (OSError, TypeError)` clause; line 217 is the
truthiness guard `if cache_path:` (both `None` and `""` are falsy) before
`save(cache_path, stan_model)` with default mode and pickling. -/
def StanModel (env : Env V) (builder : StanArgs α → Except PyErr V)
    (pystanAvailable : Bool) (args : StanArgs α)
    (cache_path : Option String) (fs : FS) : SMResult V α :=
  let installCalls := if pystanAvailable then 0 else 1
  let probe : Option (Except PyErr V) :=
    match cache_path with
    | some p => if os_path_exists fs p then some (read env fs p) else none
    | none => none
  let build : SMResult V α :=
    if pystanAvailable then
      match builder args with
      | .error e => ⟨.error e, fs, [args], installCalls⟩
      | .ok stan_model =>
        match cache_path with
        | some p =>
          if p ≠ "" then
            match save env fs p stan_model with
            | .ok fs2 => ⟨.ok stan_model, fs2, [args], installCalls⟩
            | .error e => ⟨.error e, fs, [args], installCalls⟩
          else ⟨.ok stan_model, fs, [args], installCalls⟩
        | none => ⟨.ok stan_model, fs, [args], installCalls⟩
    else ⟨.error (.nameError "pystan"), fs, [], installCalls⟩
  match probe with
  | some (.ok stan_model) => ⟨.ok stan_model, fs, [], installCalls⟩
  | some (.error e) =>
    if caughtByProbe e then build else ⟨.error e, fs, [], installCalls⟩
  | none => build

/-! Concrete instances used by the witnesses: the value universe is `Bytes`
itself, the codecs' transforms are the identity, and `pickle` is the
identity serialiser.  `env1` is a `pickle` whose `loads` always raises
`UnpicklingError` (a malformed payload); `env2` is a codec whose read
transform always raises an `OSError` (a corrupt compressed container). -/

/-- A lawful concrete collaborator instance over `V := Bytes`. -/
def env0 : Env Bytes :=
  { comp := fun _ b => b
    decomp := fun _ b => .ok b
    dumps := fun v => v
    loads := fun b => .ok b
    bytesVal := fun b => b
    asBytes := fun v => some v }

theorem env0_lawful : env0.Lawful :=
  ⟨fun _ _ => rfl, fun _ => rfl⟩

/-- Like `env0`, but every deserialisation raises `pickle.UnpicklingError`. -/
def env1 : Env Bytes :=
  { env0 with loads := fun _ => .error (.unpicklingError "invalid load key") }

/-- Like `env0`, but every codec read raises an `OSError` (as
`gzip.BadGzipFile` does on a corrupt container). -/
def env2 : Env Bytes :=
  { env0 with decomp := fun _ _ => .error (.osError "Not a gzipped file") }

/-- An external builder that always returns the artifact `[7]`. -/
def builder0 : StanArgs Nat → Except PyErr Bytes := fun _ => .ok [7]

/-- An external builder that always fails with a compilation error. -/
def builderBad : StanArgs Nat → Except PyErr Bytes :=
  fun _ => .error (.buildError "failed to parse Stan model")

/-- The empty filesystem. -/
def fs0 : FS := fun _ => none

/-- A filesystem holding one cached artifact at `"m.pkl"`. -/
def fs1 : FS := fun p => if p = "m.pkl" then some [42] else none

example : read env0 fs1 "m.pkl" = .ok [42] := by decide
example : read env1 fs1 "m.pkl" = .error (.unpicklingError "invalid load key") := by decide
example : read env2 fs1 "m.pkl" = .error (.osError "Not a gzipped file") := by decide
example : os_path_exists fs0 "" = false := by decide
example :
    (StanModel env0 builder0 true {} (some "m.pkl") fs1).builderCalls = [] := by decide
example :
    (StanModel env0 builder0 true {} none fs0).result = .ok [7] := by decide
example :
    (StanModel env0 builder0 false {} none fs0).result = .error (.nameError "pystan") := by
  decide

/-- A filesystem holding one corrupt compressed artifact at `"m.gz"`. -/
def fs3 : FS := fun p => if p = "m.gz" then some [0] else none

/-- A path that names an existing file is non-empty. -/
theorem os_path_exists_ne {fs : FS} {p : String}
    (h : os_path_exists fs p = true) : p ≠ "" := by
  simp [os_path_exists] at h
  exact h.1

/-- With mode and pickling left at their defaults, `save` always succeeds
and writes, at `path`, the selected codec's compression of the pickled
object. -/
theorem save_default (env : Env V) (fs : FS) (p : String) (v : V) :
    save env fs p v = .ok (FS.update fs p
      (env.comp ((List.lookup (splitext p).2 ext_dict).getD .io) (env.dumps v))) := by
  simp [save, _save]

/-- Round trip of the dispatcher: a default-parameter `save` followed by a
default-parameter `read` of the same path recovers the object, whatever the
path's extension, provided the external codec and serialiser collaborators
are lawful. -/
theorem save_read_aux (env : Env V) (hlaw : env.Lawful) (fs : FS) (p : String) (v : V) :
    save env fs p v = .ok (FS.update fs p
      (env.comp ((List.lookup (splitext p).2 ext_dict).getD .io) (env.dumps v))) ∧
    read env (FS.update fs p
      (env.comp ((List.lookup (splitext p).2 ext_dict).getD .io) (env.dumps v))) p = .ok v := by
  refine ⟨save_default env fs p v, ?_⟩
  simp [read, _read, FS.update, hlaw.decomp_comp, hlaw.loads_dumps]

/-- Claim C1: when a cache path is provided, names an existing file, and the
dispatcher's read of it succeeds, `StanModel` returns the loaded artifact
as-is — for arbitrary build parameters `args` and arbitrary loaded value
`v`, with no builder invocation and the filesystem untouched (the
`installCalls` count only reflects the `import pystan` attempt at the top of
the call). -/
theorem C1_cache_hit (env : Env V) (builder : StanArgs α → Except PyErr V)
    (pystanAvailable : Bool) (args : StanArgs α) (p : String) (fs : FS) (v : V)
    (hex : os_path_exists fs p = true)
    (hread : read env fs p = .ok v) :
    StanModel env builder pystanAvailable args (some p) fs =
      ⟨.ok v, fs, [], if pystanAvailable then 0 else 1⟩ := by
  unfold StanModel
  simp [hex, hread]

/-- Witness for C1: a concrete cache hit at `"m.pkl"`. -/
theorem C1_cache_hit_witness :
    StanModel env0 builder0 true {} (some "m.pkl") fs1 = ⟨.ok [42], fs1, [], 0⟩ :=
  C1_cache_hit env0 builder0 true {} "m.pkl" fs1 [42] (by decide) (by decide)

/-- Counterexample to claim C2 as stated: the empty string is a provided
cache path at which no file exists, yet `StanModel` persists nothing there
(the truthiness guard `if cache_path:` at source line 217 skips the save),
and a second call with the same cache path invokes the builder again instead
of hitting the cache. -/
theorem C2_counterexample :
    (StanModel env0 builder0 true {} (some "") fs0).result = .ok [7] ∧
    (StanModel env0 builder0 true {} (some "") fs0).builderCalls = [{}] ∧
    (StanModel env0 builder0 true {} (some "") fs0).fs "" = none ∧
    (StanModel env0 builder0 true {} (some "")
        (StanModel env0 builder0 true {} (some "") fs0).fs).builderCalls = [{}] :=
  ⟨rfl, rfl, rfl, rfl⟩

/-- Claim C2 (amended to non-empty cache paths): on a provided, non-empty
cache path at which no file exists, `StanModel` invokes the builder exactly
once with the forwarded parameters, persists the built artifact at the cache
path via the dispatcher's `save`, and returns it; with lawful collaborators
the persisted artifact reads back, so a second call with the same cache path
(and any parameters) is a cache hit that invokes no builder. -/
theorem C2_cache_miss (env : Env V) (builder : StanArgs α → Except PyErr V)
    (args args2 : StanArgs α) (p : String) (fs : FS) (v : V)
    (hlaw : env.Lawful) (hp : p ≠ "") (hmiss : fs p = none)
    (hb : builder args = .ok v) :
    ∃ fs2, save env fs p v = .ok fs2 ∧
      StanModel env builder true args (some p) fs = ⟨.ok v, fs2, [args], 0⟩ ∧
      read env fs2 p = .ok v ∧
      StanModel env builder true args2 (some p) fs2 = ⟨.ok v, fs2, [], 0⟩ := by
  obtain ⟨hsave, hread⟩ := save_read_aux env hlaw fs p v
  refine ⟨_, hsave, ?_, hread, ?_⟩
  · unfold StanModel
    simp [os_path_exists, hmiss, hb, hp, hsave]
  · have hex2 : os_path_exists (FS.update fs p
        (env.comp ((List.lookup (splitext p).2 ext_dict).getD .io) (env.dumps v))) p = true := by
      simp [os_path_exists, FS.update, hp]
    unfold StanModel
    simp [hex2, hread]

/-- Witness for C2 (amended): a concrete miss-then-hit cycle at `"m.pkl"`. -/
theorem C2_cache_miss_witness :
    ∃ fs2, save env0 fs0 "m.pkl" [7] = .ok fs2 ∧
      StanModel env0 builder0 true {} (some "m.pkl") fs0 = ⟨.ok [7], fs2, [{}], 0⟩ ∧
      read env0 fs2 "m.pkl" = .ok [7] ∧
      StanModel env0 builder0 true {} (some "m.pkl") fs2 = ⟨.ok [7], fs2, [], 0⟩ :=
  C2_cache_miss env0 builder0 {} {} "m.pkl" fs0 [7] env0_lawful (by decide) rfl rfl

/-- Claim C4: for every path — hence for every extension of the table and
for the default fallback — and every picklable object, `save` followed by
`read` on the same path returns the original object, with mode and pickling
left at their defaults, provided the external codecs and the serialiser obey
their round-trip laws. -/
theorem C4_roundtrip (env : Env V) (hlaw : env.Lawful) (fs : FS) (p : String) (v : V) :
    ∃ fs2, save env fs p v = .ok fs2 ∧ read env fs2 p = .ok v :=
  ⟨_, (save_read_aux env hlaw fs p v).1, (save_read_aux env hlaw fs p v).2⟩

/-- Witness for C4: a concrete round trip through the gzip-mapped path
`"m.gz"`. -/
theorem C4_roundtrip_witness :
    ∃ fs2, save env0 fs0 "m.gz" [1, 2] = .ok fs2 ∧ read env0 fs2 "m.gz" = .ok [1, 2] :=
  C4_roundtrip env0 env0_lawful fs0 "m.gz" [1, 2]

/-- Claim C3: the cache-probe error policy.  The probe's `except` clause
catches exactly the `OSError` hierarchy and `TypeError` (last six
conjuncts, one per exception class of the model).  A caught probe error
triggers exactly one rebuild (`[args]`) and one overwrite of the cache file
(the `save`d filesystem); an uncaught probe error — in particular a
deserialisation error such as `pickle.UnpicklingError` — propagates to the
caller with no builder invocation and no write.  The two scenarios are
stated over separate environments and filesystems so that one concrete
instantiation exercises both. -/
theorem C3_probe_error_policy
    (enva envb : Env V) (builder : StanArgs α → Except PyErr V) (args : StanArgs α)
    (pa pb : String) (fsa fsb : FS) (ea eb : PyErr) (v : V) (m : String)
    (hexa : os_path_exists fsa pa = true)
    (hreada : read enva fsa pa = .error ea)
    (hca : caughtByProbe ea = true)
    (hb : builder args = .ok v)
    (hexb : os_path_exists fsb pb = true)
    (hreadb : read envb fsb pb = .error eb)
    (hcb : caughtByProbe eb = false) :
    (∃ fs2, save enva fsa pa v = .ok fs2 ∧
       StanModel enva builder true args (some pa) fsa = ⟨.ok v, fs2, [args], 0⟩) ∧
    StanModel envb builder true args (some pb) fsb = ⟨.error eb, fsb, [], 0⟩ ∧
    caughtByProbe (.osError m) = true ∧
    caughtByProbe (.typeError m) = true ∧
    caughtByProbe (.unpicklingError m) = false ∧
    caughtByProbe (.nameError m) = false ∧
    caughtByProbe (.buildError m) = false ∧
    caughtByProbe (.other m) = false := by
  refine ⟨⟨_, save_default enva fsa pa v, ?_⟩, ?_, rfl, rfl, rfl, rfl, rfl, rfl⟩
  · unfold StanModel
    simp [hexa, hreada, hca, hb, os_path_exists_ne hexa, save_default]
  · unfold StanModel
    simp [hexb, hreadb, hcb]

/-- Witness for C3: a corrupt gzip container at `"m.gz"` raises an
`OSError` on the probe and is rebuilt and overwritten; a malformed pickle
payload at `"m.pkl"` raises `pickle.UnpicklingError`, which propagates. -/
theorem C3_probe_error_policy_witness :
    (∃ fs2, save env2 fs3 "m.gz" [7] = .ok fs2 ∧
       StanModel env2 builder0 true {} (some "m.gz") fs3 = ⟨.ok [7], fs2, [{}], 0⟩) ∧
    StanModel env1 builder0 true {} (some "m.pkl") fs1 =
      ⟨.error (.unpicklingError "invalid load key"), fs1, [], 0⟩ ∧
    caughtByProbe (.osError "m") = true ∧
    caughtByProbe (.typeError "m") = true ∧
    caughtByProbe (.unpicklingError "m") = false ∧
    caughtByProbe (.nameError "m") = false ∧
    caughtByProbe (.buildError "m") = false ∧
    caughtByProbe (.other "m") = false :=
  C3_probe_error_policy env2 env1 builder0 {} "m.gz" "m.pkl" fs3 fs1
    (.osError "Not a gzipped file") (.unpicklingError "invalid load key") [7] "m"
    (by decide) (by decide) rfl rfl (by decide) (by decide) rfl

/-- Claim C5: both `read` and `save` resolve the codec by exact string match
on the path's extension per the fixed `ext_dict` table (`.gz`/`.gzip`/`.zip`
to gzip, `.xz`/`.lzma` to lzma, `.bz2` to bzip2, `.pkl`/`.pickle` to the
raw-bytes codec), and on any path whose extension is unmapped they behave
identically to explicit raw-bytes (`io`) codec use, with the caller's mode
and pickling arguments untouched. -/
theorem C5_dispatch (env : Env V) (fs : FS) (path : String) (obj : V)
    (mode : String) (pickling : Bool) (kwargs : List (String × String))
    (hfall : List.lookup (splitext path).2 ext_dict = none) :
    List.lookup ".gz" ext_dict = some .gzip ∧
    List.lookup ".gzip" ext_dict = some .gzip ∧
    List.lookup ".zip" ext_dict = some .gzip ∧
    List.lookup ".xz" ext_dict = some .lzma ∧
    List.lookup ".lzma" ext_dict = some .lzma ∧
    List.lookup ".bz2" ext_dict = some .bz2 ∧
    List.lookup ".pkl" ext_dict = some .io ∧
    List.lookup ".pickle" ext_dict = some .io ∧
    read env fs path mode pickling = _read env fs path .io mode pickling ∧
    save env fs path obj mode pickling kwargs =
      _save env fs path obj .io mode pickling kwargs := by
  have hpkl : (splitext path).2 ≠ ".pkl" := by
    intro h
    rw [h] at hfall
    simp [ext_dict] at hfall
  have hpickle : (splitext path).2 ≠ ".pickle" := by
    intro h
    rw [h] at hfall
    simp [ext_dict] at hfall
  refine ⟨rfl, rfl, rfl, rfl, rfl, rfl, rfl, rfl, ?_, ?_⟩
  · simp [read, hfall, hpkl, hpickle]
  · simp [save, hfall, hpkl, hpickle]

/-- Witness for C5: the unmapped extension `".dat"` falls back to the
raw-bytes codec with the caller's (non-default) mode and pickling. -/
theorem C5_dispatch_witness :
    List.lookup ".gz" ext_dict = some .gzip ∧
    List.lookup ".gzip" ext_dict = some .gzip ∧
    List.lookup ".zip" ext_dict = some .gzip ∧
    List.lookup ".xz" ext_dict = some .lzma ∧
    List.lookup ".lzma" ext_dict = some .lzma ∧
    List.lookup ".bz2" ext_dict = some .bz2 ∧
    List.lookup ".pkl" ext_dict = some .io ∧
    List.lookup ".pickle" ext_dict = some .io ∧
    read env0 fs0 "m.dat" "rb" false = _read env0 fs0 "m.dat" .io "rb" false ∧
    save env0 fs0 "m.dat" [3] "wb" false [] =
      _save env0 fs0 "m.dat" [3] .io "wb" false [] :=
  C5_dispatch env0 fs0 "m.dat" [3] "rb" false [] (by decide)

/-- Claim C6: on every path whose extension is `.pkl` or `.pickle`, `read`
and `save` ignore the caller's mode and pickling arguments: they behave as
the raw-bytes codec in binary mode with serialisation forced on, i.e.
`read` always deserialises and `save` always serialises via the generic
object format. -/
theorem C6_forced_serialization (env : Env V) (fs : FS) (path : String) (obj : V)
    (mode : String) (pickling : Bool) (kwargs : List (String × String))
    (hext : (splitext path).2 = ".pkl" ∨ (splitext path).2 = ".pickle") :
    read env fs path mode pickling = _read env fs path .io "rb" true ∧
    save env fs path obj mode pickling kwargs =
      _save env fs path obj .io "wb" true kwargs ∧
    read env fs path mode pickling = read env fs path "rb" true ∧
    save env fs path obj mode pickling kwargs = save env fs path obj "wb" true kwargs := by
  obtain h | h := hext <;>
    exact ⟨by simp [read, h, ext_dict, List.lookup], by simp [save, h, ext_dict, List.lookup],
      by simp [read, h], by simp [save, h]⟩

/-- Witness for C6: at `"m.pickle"` with text mode and pickling explicitly
disabled, `read` and `save` still use binary mode and serialisation. -/
theorem C6_forced_serialization_witness :
    read env0 fs0 "m.pickle" "r" false = _read env0 fs0 "m.pickle" .io "rb" true ∧
    save env0 fs0 "m.pickle" [3] "w" false [] =
      _save env0 fs0 "m.pickle" [3] .io "wb" true [] ∧
    read env0 fs0 "m.pickle" "r" false = read env0 fs0 "m.pickle" "rb" true ∧
    save env0 fs0 "m.pickle" [3] "w" false [] = save env0 fs0 "m.pickle" [3] "wb" true [] :=
  C6_forced_serialization env0 fs0 "m.pickle" [3] "r" false [] (Or.inr (by decide))

/-- Claim C7: with no cache path, `StanModel` performs no filesystem
access: the output filesystem is the input one (no write), and neither the
result nor the builder call list depends on the filesystem (no read).  When
the `pystan` collaborator is importable, the builder is invoked exactly
once with the verbatim argument record and its outcome is returned
unchanged. -/
theorem C7_no_cache_path (env : Env V) (builder : StanArgs α → Except PyErr V)
    (pystanAvailable : Bool) (args : StanArgs α) (fs fsb : FS) :
    StanModel env builder true args none fs = ⟨builder args, fs, [args], 0⟩ ∧
    (StanModel env builder pystanAvailable args none fs).fs = fs ∧
    (StanModel env builder pystanAvailable args none fs).result =
      (StanModel env builder pystanAvailable args none fsb).result ∧
    (StanModel env builder pystanAvailable args none fs).builderCalls =
      (StanModel env builder pystanAvailable args none fsb).builderCalls := by
  refine ⟨?_, ?_, ?_, ?_⟩ <;>
    · unfold StanModel
      cases pystanAvailable <;> cases hb : builder args <;> simp [hb]

/-- Claim C8: whenever the external builder fails, `StanModel` propagates
that very error to the caller — on every code path on which the builder is
invoked at all — and the filesystem is returned exactly as it was: nothing
is written to the cache path, whether a file existed there or not. -/
theorem C8_builder_failure (env : Env V) (builder : StanArgs α → Except PyErr V)
    (args : StanArgs α) (cache_path : Option String) (fs : FS) (e : PyErr)
    (hb : builder args = .error e)
    (hcalled : (StanModel env builder true args cache_path fs).builderCalls ≠ []) :
    (StanModel env builder true args cache_path fs).result = .error e ∧
    (StanModel env builder true args cache_path fs).fs = fs := by
  unfold StanModel at *
  cases cache_path with
  | none => simp [hb]
  | some p =>
    cases hex : os_path_exists fs p with
    | false => simp [hex, hb]
    | true =>
      cases hr : read env fs p with
      | ok v => simp [hex, hr] at hcalled
      | error er =>
        cases hc : caughtByProbe er with
        | false => simp [hex, hr, hc] at hcalled
        | true => simp [hex, hr, hc, hb]

/-- Witness for C8: a failing build with no cache path propagates the build
error and leaves the (empty) filesystem untouched. -/
theorem C8_builder_failure_witness :
    (StanModel env0 builderBad true {} none fs0).result =
      .error (.buildError "failed to parse Stan model") ∧
    (StanModel env0 builderBad true {} none fs0).fs = fs0 :=
  C8_builder_failure env0 builderBad {} none fs0
    (.buildError "failed to parse Stan model") rfl (by decide)

/-- Claim C9, evaluated at the failing input: `import pystan` fails, so
`install("pystan")` runs (one installer call) — but the local name `pystan`
is never rebound, so even after a successful installation the call raises
`NameError` (`UnboundLocalError`) at line 216 without ever invoking the
builder, contradicting the claimed retry of the builder invocation. -/
theorem C9_install_no_rebind :
    StanModel env0 builder0 false {} none fs0 =
      ⟨.error (.nameError "pystan"), fs0, [], 1⟩ :=
  rfl

/-- Claim C10: with the provided-but-falsy cache path `""`, the existence
probe fails (`os.path.exists("")` is false) and the truthiness guard skips
the save, so for any filesystem the builder is invoked exactly once with
the forwarded arguments, its outcome is returned, and nothing is read from
or written to the filesystem. -/
theorem C10_empty_cache_path (env : Env V) (builder : StanArgs α → Except PyErr V)
    (args : StanArgs α) (fs : FS) :
    StanModel env builder true args (some "") fs = ⟨builder args, fs, [args], 0⟩ := by
  unfold StanModel
  cases hb : builder args <;> simp [os_path_exists, hb]

end StanColabUtils
